import Mathlib

/-!
Shallow embedding of the TextQL playbooks API client and CLI
(`src/textql-client.ts`, `src/config.ts`, `src/cli.ts`, `src/types.ts`).

The HTTP transport (`fetch`) is modelled as an oracle (`Transport`) that
assigns an outcome to every request; each client operation returns the
`TextQLResponse` the TypeScript code would produce for that outcome,
paired with the list of requests it issued (so that "never invokes the
update step" and "same sequence of requests" are statable).

JavaScript string primitives used by the source (`split`, `startsWith`,
`includes`, `toLowerCase`, `parseInt`, truthiness of `||` and `!`) are
embedded as executable functions over `List Char` below.
-/

/-- Field `paradigmOptions` of a playbook (types.ts): a record holding the
connector id. -/
structure ParadigmOptions where
  connectorId : Int
  deriving DecidableEq, Repr

/-- The `Playbook` entity (types.ts). -/
structure Playbook where
  id : String
  prompt : String
  name : String
  playbookId : String
  emailAddresses : List String
  status : String
  paradigmType : String
  paradigmOptions : ParadigmOptions
  triggerType : String
  cronString : String
  deriving DecidableEq, Repr

/-- The inner `\x7b id \x7d` record of a `CreatePlaybookRequest` (types.ts). -/
structure PlaybookIdOnly where
  id : String
  deriving DecidableEq, Repr

/-- `CreatePlaybookRequest` (types.ts): body `\x7b playbook: \x7b id \x7d \x7d`.
The create endpoint's response data has the same shape. -/
structure CreatePlaybookRequest where
  playbook : PlaybookIdOnly
  deriving DecidableEq, Repr

/-- `UpdatePlaybookRequest` (types.ts): the full-replace update payload. -/
structure UpdatePlaybookRequest where
  prompt : String
  name : String
  playbookId : String
  emailAddresses : List String
  status : String
  paradigmType : String
  paradigmOptions : ParadigmOptions
  triggerType : String
  cronString : String
  deriving DecidableEq, Repr

/-- The `Connector` entity (types.ts). -/
structure Connector where
  id : Int
  name : String
  type : String
  status : String
  createdAt : String
  updatedAt : String
  deriving DecidableEq, Repr

/-- `GetConnectorsResponse` (types.ts). -/
structure GetConnectorsResponse where
  connectors : List Connector
  deriving DecidableEq, Repr

/-- `TextQLError` (types.ts): `message`, optional `code`, optional `status`. -/
structure TextQLError where
  message : String
  code : Option String
  status : Option Nat
  deriving DecidableEq, Repr

/-- `TextQLResponse<T>` (types.ts): the uniform result shape
`\x7b success, data?, error? \x7d`. -/
structure TextQLResponse (T : Type) where
  success : Bool
  data : Option T
  error : Option TextQLError
  deriving DecidableEq, Repr

/-- `TextQLConfig` (types.ts): client construction config. -/
structure TextQLConfig where
  apiKey : String
  baseUrl : Option String
  deriving DecidableEq, Repr

/-- `TextQLConfigFile` (config.ts): the persisted settings record. -/
structure TextQLConfigFile where
  apiKey : Option String
  baseUrl : Option String
  defaultConnectorId : Option Int
  defaultCronString : Option String
  deriving DecidableEq, Repr

/-- Parameter record of `createCompletePlaybook` (textql-client.ts, inline
object type): `cronString` and `status` are optional. -/
structure CreateCompleteParams where
  playbookId : String
  prompt : String
  name : String
  emailAddresses : List String
  connectorId : Int
  cronString : Option String
  status : Option String
  deriving DecidableEq, Repr

/-! ## JavaScript string and number primitives used by the source -/

/-- Is `needle` a prefix of the second list (character-wise)? Backs the
embedding of JS `String.prototype.startsWith` and `includes`. -/
def charsPrefix : List Char → List Char → Bool
  | [], _ => true
  | _ :: _, [] => false
  | a :: as, b :: bs => a == b && charsPrefix as bs

/-- Does `needle` occur as a contiguous sublist of the second list?
Backs the embedding of JS `String.prototype.includes`. -/
def charsInfix (needle : List Char) : List Char → Bool
  | [] => charsPrefix needle []
  | b :: bs => charsPrefix needle (b :: bs) || charsInfix needle bs

/-- Embedding of JS `haystack.includes(needle)` (substring test; the empty
needle matches everything, as in JS). -/
def jsIncludes (haystack needle : String) : Bool :=
  charsInfix needle.data haystack.data

/-- Embedding of JS `arg.startsWith(pfx)`. -/
def jsStartsWith (arg pfx : String) : Bool :=
  charsPrefix pfx.data arg.data

/-- Embedding of JS `String.prototype.toLowerCase`, restricted to the
ASCII alphabet (the only case mapping the repository's data uses). -/
def jsToLower (s : String) : String :=
  String.mk (s.data.map Char.toLower)

/-- Splits a character list at every occurrence of `sep`; `[]` maps to
`[[]]`, matching JS `"".split(sep) = [""]`. -/
def splitChar (sep : Char) : List Char → List (List Char)
  | [] => [[]]
  | c :: rest =>
    let r := splitChar sep rest
    if c == sep then [] :: r
    else
      match r with
      | [] => [[c]]
      | h :: t => (c :: h) :: t

/-- Embedding of JS `s.split(sep)` for a one-character separator (the
source only ever splits on `=` and `,`). -/
def jsSplit (s : String) (sep : Char) : List String :=
  (splitChar sep s.data).map String.mk

/-- Numeric value of a leading run of decimal digits; `none` when the run
is empty (the NaN case of `parseInt`). -/
def digitsVal (cs : List Char) : Option Nat :=
  let ds := cs.takeWhile (fun c => c.isDigit)
  if ds.isEmpty then none
  else some (ds.foldl (fun a c => a * 10 + (c.toNat - 48)) 0)

/-- Embedding of JS `parseInt(s, 10)`: skip leading whitespace, optional
sign, then a maximal run of decimal digits; `none` models NaN. -/
def jsParseInt (s : String) : Option Int :=
  let cs := s.data.dropWhile (fun c => c == ' ' || c == '\t' || c == '\n' || c == '\r')
  match cs with
  | '-' :: rest => (digitsVal rest).map (fun n => -(n : Int))
  | '+' :: rest => (digitsVal rest).map (fun n => (n : Int))
  | _ => (digitsVal cs).map (fun n => (n : Int))

/-- Embedding of JS `a || d` for a possibly-absent string `a`: the empty
string is falsy, so it also falls through to the default. -/
def jsOrStr (a : Option String) (d : String) : String :=
  match a with
  | some s => if s == "" then d else s
  | none => d

/-- Embedding of JS `a || b` where both sides are possibly-absent strings
(used by the `config.apiKey || env || null` chain). -/
def jsOrOptStr (a b : Option String) : Option String :=
  match a with
  | some s => if s == "" then b else some s
  | none => b

/-- JS falsiness of a possibly-absent string (`!x`): absent or empty. -/
def jsFalsyStr (o : Option String) : Bool :=
  match o with
  | some s => s == ""
  | none => true

/-- JS falsiness of a possibly-absent number (`!x`): absent (null / NaN)
or zero. -/
def jsFalsyNum (o : Option Int) : Bool :=
  match o with
  | some n => n == 0
  | none => true

/-! ## Transport model and `makeRequest` (textql-client.ts) -/

/-- Outcome of one `fetch` call, as seen by `makeRequest`:
a 2xx response whose JSON body decodes to `T`; a non-2xx response with its
status, status text, raw body text, and the result of `JSON.parse` on that
body (`none` when the parse throws); or a thrown exception (`errMessage` is
the exception's `.message` when it is an `Error` instance, `none`
otherwise). -/
inductive FetchOutcome (T : Type) where
  | ok (data : T)
  | httpError (status : Nat) (statusText : String) (bodyText : String)
      (parsedBody : Option TextQLError)
  | exn (errMessage : Option String)

/-- Embedding of `makeRequest` (textql-client.ts lines 21-71): normalizes
every fetch outcome into a `TextQLResponse`, synthesizing a fallback error
from the raw body text or the status line when the error body does not
parse as JSON, and a generic message for thrown non-`Error` values. -/
def makeRequest {T : Type} (outcome : FetchOutcome T) : TextQLResponse T :=
  match outcome with
  | FetchOutcome.ok data => { success := true, data := some data, error := none }
  | FetchOutcome.httpError status statusText bodyText parsedBody =>
    let errorData : TextQLError :=
      match parsedBody with
      | some e => e
      | none =>
        { message :=
            if bodyText == "" then "HTTP " ++ toString status ++ ": " ++ statusText
            else bodyText,
          code := none,
          status := some status }
    { success := false, data := none, error := some errorData }
  | FetchOutcome.exn errMessage =>
    { success := false, data := none,
      error := some { message := errMessage.getD "Unknown error occurred",
                      code := none, status := none } }

/-- Body of one issued request, for the request trace. -/
inductive ReqBody where
  | create (request : CreatePlaybookRequest)
  | update (request : UpdatePlaybookRequest)
  | empty
  deriving DecidableEq, Repr

/-- One request issued against the service: endpoint path, method and
JSON body. -/
structure ApiRequest where
  endpoint : String
  method : String
  body : ReqBody
  deriving DecidableEq, Repr

/-- Endpoint path of `createPlaybook` (textql-client.ts line 83). -/
def createPlaybookEndpoint : String :=
  "/rpc/public/textql.rpc.public.playbook.PlaybookService/CreatePlaybook"

/-- Endpoint path of `updatePlaybook` (textql-client.ts line 90). -/
def updatePlaybookEndpoint : String :=
  "/rpc/public/textql.rpc.public.playbook.PlaybookService/UpdatePlaybook"

/-- Endpoint path of `getConnectors` (textql-client.ts line 97). -/
def getConnectorsEndpoint : String :=
  "/rpc/public/textql.rpc.public.connector.ConnectorService/GetConnectors"

/-- The transport oracle: what `fetch` would do for each request the three
leaf operations can issue. -/
structure Transport where
  createOutcome : CreatePlaybookRequest → FetchOutcome CreatePlaybookRequest
  updateOutcome : UpdatePlaybookRequest → FetchOutcome Playbook
  connectorsOutcome : FetchOutcome GetConnectorsResponse

/-! ## Client operations (textql-client.ts) -/

/-- Embedding of `createPlaybook` (lines 76-84): issues the creation
request carrying only the identifier. -/
def createPlaybook (t : Transport) (playbookId : String) :
    TextQLResponse CreatePlaybookRequest × List ApiRequest :=
  let request : CreatePlaybookRequest := { playbook := { id := playbookId } }
  (makeRequest (t.createOutcome request),
   [{ endpoint := createPlaybookEndpoint, method := "POST", body := ReqBody.create request }])

/-- Embedding of `updatePlaybook` (lines 89-91): issues the full-replace
update payload. -/
def updatePlaybook (t : Transport) (playbook : UpdatePlaybookRequest) :
    TextQLResponse Playbook × List ApiRequest :=
  (makeRequest (t.updateOutcome playbook),
   [{ endpoint := updatePlaybookEndpoint, method := "POST", body := ReqBody.update playbook }])

/-- Embedding of `getConnectors` (lines 96-98): issues a request with an
empty body. -/
def getConnectors (t : Transport) :
    TextQLResponse GetConnectorsResponse × List ApiRequest :=
  (makeRequest t.connectorsOutcome,
   [{ endpoint := getConnectorsEndpoint, method := "POST", body := ReqBody.empty }])

/-- Embedding of `createCompletePlaybook` (lines 103-139): create, then on
success update with the defaulted full payload; on create failure return a
failure result carrying the creation error without issuing the update. -/
def createCompletePlaybook (t : Transport) (params : CreateCompleteParams) :
    TextQLResponse Playbook × List ApiRequest :=
  let cronString := params.cronString.getD "0 13 * * *"
  let status := params.status.getD "STATUS_ACTIVE"
  let createResult := (createPlaybook t params.playbookId).1
  let createTrace := (createPlaybook t params.playbookId).2
  if createResult.success then
    let updateRequest : UpdatePlaybookRequest :=
      { prompt := params.prompt,
        name := params.name,
        playbookId := params.playbookId,
        emailAddresses := params.emailAddresses,
        status := status,
        paradigmType := "TYPE_SQL",
        paradigmOptions := { connectorId := params.connectorId },
        triggerType := "TRIGGER_TYPE_CRON",
        cronString := cronString }
    ((updatePlaybook t updateRequest).1, createTrace ++ (updatePlaybook t updateRequest).2)
  else
    ({ success := false, data := none, error := createResult.error }, createTrace)

/-- Embedding of `listConnectors` (lines 144-150): raises (models JS
`throw`) with the result's error message, or the fixed fallback text, when
the underlying result is unsuccessful or carries no data. -/
def listConnectors (t : Transport) :
    Except String (List Connector) × List ApiRequest :=
  let result := (getConnectors t).1
  match result.success, result.data with
  | true, some d => (Except.ok d.connectors, (getConnectors t).2)
  | _, _ =>
    (Except.error (jsOrStr (result.error.map (fun e => e.message)) "Failed to fetch connectors"),
     (getConnectors t).2)

/-- The predicate `findConnectorByName` passes to `Array.prototype.find`
(line 157-158): case-insensitive substring match on the connector name. -/
def connectorMatches (name : String) (c : Connector) : Bool :=
  jsIncludes (jsToLower c.name) (jsToLower name)

/-- Embedding of `findConnectorByName` (lines 155-160): first matching
connector or the null marker; a raise from `listConnectors` propagates. -/
def findConnectorByName (t : Transport) (name : String) :
    Except String (Option Connector) × List ApiRequest :=
  match listConnectors t with
  | (Except.error m, trace) => (Except.error m, trace)
  | (Except.ok connectors, trace) =>
    (Except.ok (connectors.find? (fun c => connectorMatches name c)), trace)

/-! ## Config manager (config.ts) -/

/-- Embedding of `getApiKey` (config.ts lines 55-58):
`config.apiKey || process.env.TEXTQL_API_KEY || null` over a loaded settings
record and the environment variable. -/
def getApiKey (config : TextQLConfigFile) (env : Option String) : Option String :=
  jsOrOptStr config.apiKey (jsOrOptStr env none)

/-- Embedding of `setApiKey` (config.ts lines 63-67): read-modify-write of
the whole settings record with only `apiKey` replaced. -/
def setApiKey (config : TextQLConfigFile) (apiKey : String) : TextQLConfigFile :=
  { config with apiKey := some apiKey }

/-- Embedding of `getBaseUrl` (config.ts lines 72-75). -/
def getBaseUrl (config : TextQLConfigFile) : String :=
  jsOrStr config.baseUrl "https://app.textql.com"

/-- Embedding of `getDefaultConnectorId` (config.ts lines 80-83):
`config.defaultConnectorId || null`, so a stored `0` is returned as
`null`. -/
def getDefaultConnectorId (config : TextQLConfigFile) : Option Int :=
  match config.defaultConnectorId with
  | some n => if n == 0 then none else some n
  | none => none

/-- Embedding of `setDefaultConnectorId` (config.ts lines 88-92). -/
def setDefaultConnectorId (config : TextQLConfigFile) (connectorId : Int) : TextQLConfigFile :=
  { config with defaultConnectorId := some connectorId }

/-- Embedding of `getDefaultCronString` (config.ts lines 97-100):
`config.defaultCronString || '0 13 * * *'`. -/
def getDefaultCronString (config : TextQLConfigFile) : String :=
  jsOrStr config.defaultCronString "0 13 * * *"

/-- Embedding of `setDefaultCronString` (config.ts lines 105-109). -/
def setDefaultCronString (config : TextQLConfigFile) (cronString : String) : TextQLConfigFile :=
  { config with defaultCronString := some cronString }

/-! ## CLI (cli.ts)

A handler run is modelled up to the point where it either terminates the
process via `process.exit` (with the exit code and the error line it
printed) or submits its network payload; network effects after submission
are the client operations above. -/

/-- Outcome of a CLI handler: early `process.exit`, or the payload handed
to the client (the point where the network request is issued). -/
inductive CliResult (A : Type) where
  | exit (code : Nat) (message : String)
  | submit (payload : A)
  deriving DecidableEq, Repr

/-- Embedding of `initializeClient` (cli.ts lines 14-25): resolve the API
key from settings and environment; `none` models the `process.exit(1)`
path, otherwise the constructed client config. -/
def initializeClient (config : TextQLConfigFile) (env : Option String) : Option TextQLConfig :=
  match getApiKey config env with
  | none => none
  | some apiKey => some { apiKey := apiKey, baseUrl := some (getBaseUrl config) }

/-- The error line `initializeClient` prints before exiting. -/
def noApiKeyMessage : String :=
  "❌ No API key found. Please set it using: textql config set-api-key <your-key>"

/-- The error line `handleCreate`/`handleUpdate` print when no connector id
is available. -/
def noConnectorMessage : String :=
  "❌ No connector ID provided and no default set. Use --connector=<id> or set a default with: textql config set-connector <id>"

/-- Embedding of the flag lookup pattern
`args.find(arg => arg.startsWith(pfx))?.split('=')[1]` used throughout
cli.ts. -/
def getFlag (args : List String) (pfx : String) : Option String :=
  (args.find? (fun a => jsStartsWith a pfx)).map (fun a => (jsSplit a '=').getD 1 "")

/-- Embedding of the connector-id resolution shared by `handleCreate`
(cli.ts line 148) and `handleUpdate` (line 199):
`connectorId ? parseInt(connectorId) : getDefaultConnectorId()`. -/
def resolveConnectorId (args : List String) (config : TextQLConfigFile) : Option Int :=
  match getFlag args "--connector=" with
  | some s => if s == "" then getDefaultConnectorId config else jsParseInt s
  | none => getDefaultConnectorId config

/-- Embedding of `handleConnectors` (cli.ts lines 110-129) up to its
network call: it only reaches the network when a client was initialized. -/
def handleConnectors (config : TextQLConfigFile) (env : Option String) : CliResult Unit :=
  match initializeClient config env with
  | none => CliResult.exit 1 noApiKeyMessage
  | some _ => CliResult.submit ()

/-- Embedding of `handleCreate` (cli.ts lines 131-176) up to its network
call: flag parsing, required-parameter validation, connector resolution,
and the parameter record handed to `createCompletePlaybook`. -/
def handleCreate (config : TextQLConfigFile) (env : Option String) (args : List String) :
    CliResult CreateCompleteParams :=
  match initializeClient config env with
  | none => CliResult.exit 1 noApiKeyMessage
  | some _ =>
    let playbookId := getFlag args "--id="
    let prompt := getFlag args "--prompt="
    let name := getFlag args "--name="
    let emails := (getFlag args "--emails=").map (fun v => jsSplit v ',')
    let cronString := getFlag args "--cron="
    if jsFalsyStr playbookId || jsFalsyStr prompt || jsFalsyStr name || emails.isNone then
      CliResult.exit 1 "❌ Missing required parameters. Usage:"
    else
      let connectorIdNum := resolveConnectorId args config
      if jsFalsyNum connectorIdNum then
        CliResult.exit 1 noConnectorMessage
      else
        CliResult.submit
          { playbookId := playbookId.getD "",
            prompt := prompt.getD "",
            name := name.getD "",
            emailAddresses := emails.getD [],
            connectorId := connectorIdNum.getD 0,
            cronString := some (jsOrStr cronString (getDefaultCronString config)),
            status := none }

/-- Embedding of `handleUpdate` (cli.ts lines 178-234) up to its network
call: only `--id` is required; every other field of the submitted
`UpdatePlaybookRequest` falls back to a flag, a persisted default, or a
hardcoded default. -/
def handleUpdate (config : TextQLConfigFile) (env : Option String) (args : List String) :
    CliResult UpdatePlaybookRequest :=
  match initializeClient config env with
  | none => CliResult.exit 1 noApiKeyMessage
  | some _ =>
    let playbookId := getFlag args "--id="
    let prompt := getFlag args "--prompt="
    let name := getFlag args "--name="
    let emails := (getFlag args "--emails=").map (fun v => jsSplit v ',')
    let cronString := getFlag args "--cron="
    let statusArg := getFlag args "--status="
    let status : Option String :=
      if statusArg == some "STATUS_ACTIVE" || statusArg == some "STATUS_INACTIVE" then statusArg
      else none
    if jsFalsyStr playbookId then
      CliResult.exit 1 "❌ Playbook ID is required. Usage:"
    else
      let connectorIdNum := resolveConnectorId args config
      if jsFalsyNum connectorIdNum then
        CliResult.exit 1 noConnectorMessage
      else
        CliResult.submit
          { prompt := jsOrStr prompt "SELECT 1;",
            name := jsOrStr name "Updated Playbook",
            playbookId := playbookId.getD "",
            emailAddresses := emails.getD ["admin@example.com"],
            status := jsOrStr status "STATUS_ACTIVE",
            paradigmType := "TYPE_SQL",
            paradigmOptions := { connectorId := connectorIdNum.getD 0 },
            triggerType := "TRIGGER_TYPE_CRON",
            cronString := jsOrStr cronString (getDefaultCronString config) }


/-- Modelled from the spec: the manual two-step path of the round-trip
property in section 8 — "a `create` followed by an `update` with identical
field values" (the composite's defaults applied) — issued unconditionally
in sequence. The repository has no such composed caller under src/; this
definition follows the spec's words for the refinement comparison. -/
def manualCreateThenUpdate (t : Transport) (params : CreateCompleteParams) :
    TextQLResponse Playbook × List ApiRequest :=
  let updateRequest : UpdatePlaybookRequest :=
    { prompt := params.prompt,
      name := params.name,
      playbookId := params.playbookId,
      emailAddresses := params.emailAddresses,
      status := params.status.getD "STATUS_ACTIVE",
      paradigmType := "TYPE_SQL",
      paradigmOptions := { connectorId := params.connectorId },
      triggerType := "TRIGGER_TYPE_CRON",
      cronString := params.cronString.getD "0 13 * * *" }
  ((updatePlaybook t updateRequest).1,
   (createPlaybook t params.playbookId).2 ++ (updatePlaybook t updateRequest).2)

/-! ## Concrete fixtures used by witnesses and counterexamples -/

/-- A transport whose create call throws: exercises the short-circuit
path. -/
def failingCreateTransport : Transport :=
  { createOutcome := fun _ => FetchOutcome.exn (some "boom"),
    updateOutcome := fun _ => FetchOutcome.exn (some "boom"),
    connectorsOutcome := FetchOutcome.exn (some "boom") }

/-- A transport where every call succeeds, echoing the update payload back
as the stored playbook. -/
def echoTransport : Transport :=
  { createOutcome := fun r => FetchOutcome.ok r,
    updateOutcome := fun r =>
      FetchOutcome.ok
        { id := "srv-1", prompt := r.prompt, name := r.name, playbookId := r.playbookId,
          emailAddresses := r.emailAddresses, status := r.status,
          paradigmType := r.paradigmType, paradigmOptions := r.paradigmOptions,
          triggerType := r.triggerType, cronString := r.cronString },
    connectorsOutcome := FetchOutcome.ok { connectors := [] } }

/-- Example parameters for the composite workflow. -/
def demoParams : CreateCompleteParams :=
  { playbookId := "pb-1", prompt := "SELECT 1", name := "Demo",
    emailAddresses := ["a@b.c"], connectorId := 7, cronString := none, status := none }

/-- The spec's example connector list: a Postgres connector first, then a
MySQL one. -/
def postgresConnector : Connector :=
  { id := 1, name := "Postgres-Prod", type := "postgres", status := "ACTIVE",
    createdAt := "2024-01-01", updatedAt := "2024-01-02" }

/-- Second connector of the spec's example list. -/
def mysqlConnector : Connector :=
  { id := 2, name := "MySQL", type := "mysql", status := "ACTIVE",
    createdAt := "2024-01-01", updatedAt := "2024-01-02" }

/-- A transport whose connectors call returns the spec's example list. -/
def connectorListTransport : Transport :=
  { createOutcome := fun r => FetchOutcome.ok r,
    updateOutcome := fun _ => FetchOutcome.exn none,
    connectorsOutcome := FetchOutcome.ok { connectors := [postgresConnector, mysqlConnector] } }

/-- A transport whose connectors call is refused at the transport level. -/
def refusedConnectorsTransport : Transport :=
  { createOutcome := fun r => FetchOutcome.ok r,
    updateOutcome := fun _ => FetchOutcome.exn none,
    connectorsOutcome := FetchOutcome.exn (some "connection refused") }

/-- Settings with an api key and defaults, used by the update witness:
`defaultCronString` persisted as `0 9 * * *`. -/
def cronNineConfig : TextQLConfigFile :=
  { apiKey := some "key", baseUrl := none, defaultConnectorId := some 5,
    defaultCronString := some "0 9 * * *" }

/-- Settings carrying nothing at all. -/
def emptyConfig : TextQLConfigFile :=
  { apiKey := none, baseUrl := none, defaultConnectorId := none, defaultCronString := none }

/-- Settings whose persisted api key is the empty string. -/
def emptyKeyConfig : TextQLConfigFile :=
  { apiKey := some "", baseUrl := none, defaultConnectorId := none, defaultCronString := none }

/-- Settings with a non-empty persisted api key. -/
def fileKeyConfig : TextQLConfigFile :=
  { apiKey := some "file-key", baseUrl := none, defaultConnectorId := none,
    defaultCronString := none }

/-- Settings with an api key and a persisted default connector id of 0. -/
def zeroConnectorConfig : TextQLConfigFile :=
  { apiKey := some "key", baseUrl := none, defaultConnectorId := some 0,
    defaultCronString := none }

/-! ## Helper lemmas -/

/-- The synthesized status-line fallback message is never empty. -/
theorem httpFallback_ne_empty (a b c : String) : ("HTTP " ++ a ++ b ++ c) ≠ "" := by
  intro h
  have hl := congrArg String.length h
  simp [String.length_append] at hl
  exact absurd hl.1.1.1 (by decide)

/-- A found element satisfies the predicate and is the first match in list
order: everything before it fails the predicate. -/
theorem find_is_first {α : Type} (p : α → Bool) (l : List α) (c : α)
    (h : l.find? p = some c) :
    p c = true ∧ ∃ l₁ l₂, l = l₁ ++ c :: l₂ ∧ ∀ x ∈ l₁, p x = false := by
  induction l with
  | nil => simp [List.find?] at h
  | cons a as ih =>
    rw [List.find?] at h
    cases hpa : p a with
    | true =>
      rw [hpa] at h
      cases h
      exact ⟨hpa, [], as, rfl, by intro x hx; cases hx⟩
    | false =>
      rw [hpa] at h
      obtain ⟨h1, l₁, l₂, heq, hall⟩ := ih h
      refine ⟨h1, a :: l₁, l₂, by rw [heq]; rfl, ?_⟩
      intro x hx
      rcases List.mem_cons.mp hx with rfl | hx'
      · exact hpa
      · exact hall x hx'

/-- `find?` misses exactly when no element satisfies the predicate. -/
theorem find_none_iff {α : Type} (p : α → Bool) (l : List α) :
    l.find? p = none ↔ ∀ x ∈ l, p x = false := by
  induction l with
  | nil => simp [List.find?]
  | cons a as ih => cases hpa : p a <;> simp [List.find?, hpa, ih]

/-! ## Claims -/

/-- C1: `createCompletePlaybook` first calls `createPlaybook(playbookId)`;
on a failed creation it returns a failure carrying the creation error and
issues no update request; on success it calls `updatePlaybook` with the
payload built from `params` (cron defaulting to `0 13 * * *`, status to
`STATUS_ACTIVE`, paradigm/trigger fixed to SQL/CRON, connectorId wrapped in
`paradigmOptions`) and returns that call's result verbatim. -/
theorem createCompletePlaybook_spec (t : Transport) (p : CreateCompleteParams) :
    createCompletePlaybook t p =
      (if (createPlaybook t p.playbookId).1.success then
        ((updatePlaybook t
            { prompt := p.prompt, name := p.name, playbookId := p.playbookId,
              emailAddresses := p.emailAddresses,
              status := p.status.getD "STATUS_ACTIVE",
              paradigmType := "TYPE_SQL",
              paradigmOptions := { connectorId := p.connectorId },
              triggerType := "TRIGGER_TYPE_CRON",
              cronString := p.cronString.getD "0 13 * * *" }).1,
         (createPlaybook t p.playbookId).2 ++
           (updatePlaybook t
             { prompt := p.prompt, name := p.name, playbookId := p.playbookId,
               emailAddresses := p.emailAddresses,
               status := p.status.getD "STATUS_ACTIVE",
               paradigmType := "TYPE_SQL",
               paradigmOptions := { connectorId := p.connectorId },
               triggerType := "TRIGGER_TYPE_CRON",
               cronString := p.cronString.getD "0 13 * * *" }).2)
      else
        ({ success := false, data := none, error := (createPlaybook t p.playbookId).1.error },
         (createPlaybook t p.playbookId).2)) := by
  unfold createCompletePlaybook
  cases h : (createPlaybook t p.playbookId).1.success <;> simp [h]

/-- C2 (amended): every failing fetch outcome is normalized to
`success = false` with an error object present and never escapes as a
raise; the message is non-empty whenever the error body fails to parse as
JSON (falling back to the raw body or the status line) and when the thrown
value is not an `Error`; a parsed body's message, or a thrown `Error`'s own
message, is passed through verbatim; the three leaf operations all consist
of `makeRequest` on their outcome. -/
theorem makeRequest_failure_spec {T : Type} (t : Transport) (o : FetchOutcome T) :
    ((makeRequest o).success = false → (makeRequest o).error.isSome = true) ∧
    (∀ st stx body, o = FetchOutcome.httpError st stx body none →
      (makeRequest o).error =
          some { message := if body == "" then "HTTP " ++ toString st ++ ": " ++ stx else body,
                 code := none, status := some st } ∧
        ∀ e, (makeRequest o).error = some e → e.message ≠ "") ∧
    (o = FetchOutcome.exn none →
      (makeRequest o).error =
        some { message := "Unknown error occurred", code := none, status := none }) ∧
    (∀ m, o = FetchOutcome.exn (some m) →
      (makeRequest o).error = some { message := m, code := none, status := none }) ∧
    (∀ pid, (createPlaybook t pid).1 = makeRequest (t.createOutcome { playbook := { id := pid } })) ∧
    (∀ r, (updatePlaybook t r).1 = makeRequest (t.updateOutcome r)) ∧
    (getConnectors t).1 = makeRequest t.connectorsOutcome := by
  refine ⟨?_, ?_, ?_, ?_, fun pid => rfl, fun r => rfl, rfl⟩
  · cases o <;> simp [makeRequest]
  · intro st stx body h
    subst h
    refine ⟨rfl, ?_⟩
    intro e he
    simp only [makeRequest, Option.some.injEq] at he
    subst he
    by_cases hb : body = ""
    · subst hb
      simp only [beq_self_eq_true, if_true]
      exact httpFallback_ne_empty (toString st) ": " stx
    · simp [hb]
  · intro h; subst h; rfl
  · intro m h; subst h; rfl

/-- C2 witness: a 500 response with an empty body synthesizes the
status-line fallback and a non-empty message. -/
theorem makeRequest_failure_witness :
    (@makeRequest Playbook (FetchOutcome.httpError 500 "Internal Server Error" "" none)).error =
        some { message := if "" == "" then "HTTP " ++ toString 500 ++ ": " ++ "Internal Server Error" else "",
               code := none, status := some 500 } ∧
      ∀ e, (@makeRequest Playbook (FetchOutcome.httpError 500 "Internal Server Error" "" none)).error =
          some e → e.message ≠ "" :=
  (makeRequest_failure_spec ⟨fun r => FetchOutcome.ok r, fun _ => FetchOutcome.exn none,
      FetchOutcome.exn none⟩
    (@FetchOutcome.httpError Playbook 500 "Internal Server Error" "" none)).2.1
    500 "Internal Server Error" "" rfl

/-- C2 counterexample: the claim's universal non-emptiness fails when the
error body is the valid JSON object whose `message` field is the empty
string — the parsed message is returned verbatim, so `error.message` is
empty. -/
theorem makeRequest_empty_message_counterexample :
    (@makeRequest Playbook (FetchOutcome.httpError 500 "Internal Server Error"
        "\x7b\"message\":\"\"\x7d" (some { message := "", code := none, status := none }))).success
        = false ∧
      (@makeRequest Playbook (FetchOutcome.httpError 500 "Internal Server Error"
          "\x7b\"message\":\"\"\x7d" (some { message := "", code := none, status := none }))).error
        = some { message := "", code := none, status := none } :=
  ⟨rfl, rfl⟩

/-- C3 counterexample: under a transport whose create call fails, the
composite issues only the create request, while the spec's manual
create-then-update sequence issues both, so the request sequences differ. -/
theorem roundTrip_counterexample :
    (createCompletePlaybook failingCreateTransport demoParams).2 ≠
      (manualCreateThenUpdate failingCreateTransport demoParams).2 := by decide

/-- C3 (amended): whenever the create step succeeds, the composite
workflow issues exactly the request sequence of the manual
create-then-update path with the same (defaulted) field values and returns
the same overall result, so both paths leave the server-observable record
equal. -/
theorem roundTrip_equivalence (t : Transport) (p : CreateCompleteParams)
    (h : (createPlaybook t p.playbookId).1.success = true) :
    createCompletePlaybook t p = manualCreateThenUpdate t p := by
  unfold createCompletePlaybook manualCreateThenUpdate
  simp [h]

/-- C3 witness: on a fully successful transport the composite and the
manual two-step coincide on the demo parameters. -/
theorem roundTrip_equivalence_witness :
    createCompletePlaybook echoTransport demoParams =
      manualCreateThenUpdate echoTransport demoParams :=
  roundTrip_equivalence echoTransport demoParams rfl

/-- C4: `listConnectors` raises (models JS `throw`) exactly when the
underlying `getConnectors` result is unsuccessful or carries no data, with
the result's error message or the fixed fallback text; on success it
returns the bare connector list; and `findConnectorByName` raises exactly
when `listConnectors` raises, with the same message. -/
theorem listConnectors_spec (t : Transport) (name : String) :
    (((getConnectors t).1.success = false ∨ (getConnectors t).1.data = none) →
      (listConnectors t).1 =
        Except.error (jsOrStr ((getConnectors t).1.error.map (fun e => e.message))
          "Failed to fetch connectors")) ∧
    (∀ d, (getConnectors t).1.success = true → (getConnectors t).1.data = some d →
      (listConnectors t).1 = Except.ok d.connectors) ∧
    (∀ m, (findConnectorByName t name).1 = Except.error m ↔
      (listConnectors t).1 = Except.error m) := by
  refine ⟨?_, ?_, ?_⟩
  · intro h
    cases hs : (getConnectors t).1.success <;> rcases hd : (getConnectors t).1.data with _ | d
    · simp [listConnectors, hs, hd]
    · simp [listConnectors, hs, hd]
    · simp [listConnectors, hs, hd]
    · rcases h with h | h
      · rw [hs] at h; cases h
      · rw [hd] at h; cases h
  · intro d hs hd
    simp [listConnectors, hs, hd]
  · intro m
    rcases hp : listConnectors t with ⟨res, tr⟩
    cases res with
    | error e => simp [findConnectorByName, hp]
    | ok l => simp [findConnectorByName, hp]

/-- C4 witness: a transport-level refusal makes `listConnectors` raise
with the underlying message. -/
theorem listConnectors_spec_witness :
    (listConnectors refusedConnectorsTransport).1 =
      Except.error (jsOrStr ((getConnectors refusedConnectorsTransport).1.error.map
        (fun e => e.message)) "Failed to fetch connectors") :=
  (listConnectors_spec refusedConnectorsTransport "x").1 (Or.inl rfl)

/-- C5: on a successfully fetched list, `findConnectorByName` returns the
first connector in list order whose name contains the query as a
case-insensitive substring, and the null marker exactly when no connector
matches; earlier elements of the list are never skipped over a match. -/
theorem findConnectorByName_spec (t : Transport) (name : String) (l : List Connector)
    (hl : (listConnectors t).1 = Except.ok l) :
    (∀ c, (findConnectorByName t name).1 = Except.ok (some c) →
      connectorMatches name c = true ∧
        ∃ l₁ l₂, l = l₁ ++ c :: l₂ ∧ ∀ x ∈ l₁, connectorMatches name x = false) ∧
    ((findConnectorByName t name).1 = Except.ok none ↔
      ∀ x ∈ l, connectorMatches name x = false) := by
  rcases hp : listConnectors t with ⟨res, tr⟩
  rw [hp] at hl
  have hres : res = Except.ok l := hl
  subst hres
  constructor
  · intro c hc
    simp only [findConnectorByName, hp, Except.ok.injEq] at hc
    exact find_is_first _ l c hc
  · simp only [findConnectorByName, hp, Except.ok.injEq]
    exact find_none_iff _ l

/-- C5 witness: the spec's example — searching "postgres" in
[Postgres-Prod, MySQL] matches the first connector case-insensitively with
nothing before it. -/
theorem findConnectorByName_spec_witness :
    connectorMatches "postgres" postgresConnector = true ∧
      ∃ l₁ l₂, [postgresConnector, mysqlConnector] = l₁ ++ postgresConnector :: l₂ ∧
        ∀ x ∈ l₁, connectorMatches "postgres" x = false :=
  (findConnectorByName_spec connectorListTransport "postgres"
      [postgresConnector, mysqlConnector] rfl).1 postgresConnector rfl

/-- C6: whenever `handleUpdate` submits a payload, the submitted
`UpdatePlaybookRequest` is complete and every field is resolved locally —
from the corresponding flag when provided and non-empty, else from a
persisted default, else from a hardcoded default — never fetched from the
server; in particular the cron string falls back to the persisted
`defaultCronString`. -/
theorem handleUpdate_fills_defaults (cfg : TextQLConfigFile) (env : Option String)
    (args : List String) (r : UpdatePlaybookRequest)
    (h : handleUpdate cfg env args = CliResult.submit r) :
    r.prompt = jsOrStr (getFlag args "--prompt=") "SELECT 1;" ∧
    r.name = jsOrStr (getFlag args "--name=") "Updated Playbook" ∧
    r.playbookId = (getFlag args "--id=").getD "" ∧
    r.emailAddresses =
      ((getFlag args "--emails=").map (fun v => jsSplit v ',')).getD ["admin@example.com"] ∧
    r.status = jsOrStr
      (if getFlag args "--status=" == some "STATUS_ACTIVE" ||
          getFlag args "--status=" == some "STATUS_INACTIVE" then getFlag args "--status="
       else none) "STATUS_ACTIVE" ∧
    r.paradigmType = "TYPE_SQL" ∧
    r.triggerType = "TRIGGER_TYPE_CRON" ∧
    r.paradigmOptions.connectorId = (resolveConnectorId args cfg).getD 0 ∧
    r.cronString = jsOrStr (getFlag args "--cron=") (getDefaultCronString cfg) := by
  unfold handleUpdate at h
  simp only [] at h
  split at h
  · simp at h
  · split at h
    · simp at h
    · split at h
      · simp at h
      · cases h
        exact ⟨rfl, rfl, rfl, rfl, rfl, rfl, rfl, rfl, rfl⟩

/-- C6 witness: with persisted `defaultCronString = "0 9 * * *"`, an
update invocation carrying only `--id` submits exactly that cron string. -/
theorem handleUpdate_fills_defaults_witness :
    handleUpdate cronNineConfig none ["--id=pb-1"] =
        CliResult.submit
          { prompt := "SELECT 1;", name := "Updated Playbook", playbookId := "pb-1",
            emailAddresses := ["admin@example.com"], status := "STATUS_ACTIVE",
            paradigmType := "TYPE_SQL", paradigmOptions := { connectorId := 5 },
            triggerType := "TRIGGER_TYPE_CRON", cronString := "0 9 * * *" } ∧
      "0 9 * * *" = jsOrStr (getFlag ["--id=pb-1"] "--cron=")
        (getDefaultCronString cronNineConfig) :=
  ⟨by decide,
   ((handleUpdate_fills_defaults cronNineConfig none ["--id=pb-1"]
      { prompt := "SELECT 1;", name := "Updated Playbook", playbookId := "pb-1",
        emailAddresses := ["admin@example.com"], status := "STATUS_ACTIVE",
        paradigmType := "TYPE_SQL", paradigmOptions := { connectorId := 5 },
        triggerType := "TRIGGER_TYPE_CRON", cronString := "0 9 * * *" }
      (by decide)).2.2.2.2.2.2.2.2).symm⟩

/-- C7: with no persisted api key and the environment variable unset,
every client-requiring command (connectors, create, update) terminates
with exit code 1 and the missing-key error before any network payload is
submitted. -/
theorem missingApiKey_exits (cfg : TextQLConfigFile) (env : Option String) (args : List String)
    (hkey : cfg.apiKey = none) (henv : env = none) :
    handleConnectors cfg env = CliResult.exit 1 noApiKeyMessage ∧
    handleCreate cfg env args = CliResult.exit 1 noApiKeyMessage ∧
    handleUpdate cfg env args = CliResult.exit 1 noApiKeyMessage := by
  subst henv
  have hg : getApiKey cfg none = none := by simp [getApiKey, jsOrOptStr, hkey]
  have hi : initializeClient cfg none = none := by simp [initializeClient, hg]
  exact ⟨by simp [handleConnectors, hi], by simp [handleCreate, hi], by simp [handleUpdate, hi]⟩

/-- C7 witness: the three handlers on fully empty settings and
environment. -/
theorem missingApiKey_exits_witness :
    handleConnectors emptyConfig none = CliResult.exit 1 noApiKeyMessage ∧
    handleCreate emptyConfig none [] = CliResult.exit 1 noApiKeyMessage ∧
    handleUpdate emptyConfig none [] = CliResult.exit 1 noApiKeyMessage :=
  missingApiKey_exits emptyConfig none [] rfl rfl

/-- C8 counterexample: with a persisted api key equal to the empty string
and the environment variable set, `getApiKey` returns the environment
value, not the persisted one — the claim's unrestricted file-wins
precedence fails. -/
theorem getApiKey_empty_string_counterexample :
    emptyKeyConfig.apiKey = some "" ∧
      getApiKey emptyKeyConfig (some "env-key") = some "env-key" ∧
      some "env-key" ≠ (some "" : Option String) :=
  ⟨rfl, rfl, by decide⟩

/-- C8 (amended): `getApiKey` returns the persisted key whenever it is
present and non-empty; when the persisted key is absent or empty it
returns the environment value (with an empty environment value treated as
absent), and the absent marker when both sources are absent or empty. -/
theorem getApiKey_precedence (cfg : TextQLConfigFile) (env : Option String) :
    (∀ k, cfg.apiKey = some k → k ≠ "" → getApiKey cfg env = some k) ∧
    ((cfg.apiKey = none ∨ cfg.apiKey = some "") →
      getApiKey cfg env =
        (match env with
         | some e => if e == "" then none else some e
         | none => none)) := by
  constructor
  · intro k hk hne
    simp [getApiKey, jsOrOptStr, hk, hne]
  · intro h
    rcases h with h | h <;> cases henv : env <;> simp [getApiKey, jsOrOptStr, h, henv]

/-- C8 witness: a non-empty persisted key wins over the environment. -/
theorem getApiKey_precedence_witness :
    getApiKey fileKeyConfig (some "env-key") = some "file-key" :=
  (getApiKey_precedence fileKeyConfig (some "env-key")).1 "file-key" rfl (by decide)

/-- C9: each set-operation rewrites the settings record with only its own
field changed; every other field keeps its previous value. -/
theorem setOperations_frame (cfg : TextQLConfigFile) (k : String) (n : Int) (s : String) :
    (setApiKey cfg k).apiKey = some k ∧
    (setApiKey cfg k).baseUrl = cfg.baseUrl ∧
    (setApiKey cfg k).defaultConnectorId = cfg.defaultConnectorId ∧
    (setApiKey cfg k).defaultCronString = cfg.defaultCronString ∧
    (setDefaultConnectorId cfg n).defaultConnectorId = some n ∧
    (setDefaultConnectorId cfg n).apiKey = cfg.apiKey ∧
    (setDefaultConnectorId cfg n).baseUrl = cfg.baseUrl ∧
    (setDefaultConnectorId cfg n).defaultCronString = cfg.defaultCronString ∧
    (setDefaultCronString cfg s).defaultCronString = some s ∧
    (setDefaultCronString cfg s).apiKey = cfg.apiKey ∧
    (setDefaultCronString cfg s).baseUrl = cfg.baseUrl ∧
    (setDefaultCronString cfg s).defaultConnectorId = cfg.defaultConnectorId :=
  ⟨rfl, rfl, rfl, rfl, rfl, rfl, rfl, rfl, rfl, rfl, rfl, rfl⟩

/-- C10: a persisted `defaultConnectorId` of 0 reads back as absent, a
connector id resolving to a falsy value (0 from the flag, or an absent /
NaN / zeroed default) makes `create` and `update` exit with the
missing-connector validation error once they reach the connector check,
and no submitted payload ever carries connector id 0. -/
theorem zeroConnectorId_absent (cfg : TextQLConfigFile) (env : Option String)
    (args : List String) :
    (cfg.defaultConnectorId = some 0 → getDefaultConnectorId cfg = none) ∧
    ((getApiKey cfg env).isSome = true →
      jsFalsyStr (getFlag args "--id=") = false →
      jsFalsyStr (getFlag args "--prompt=") = false →
      jsFalsyStr (getFlag args "--name=") = false →
      (getFlag args "--emails=").isSome = true →
      jsFalsyNum (resolveConnectorId args cfg) = true →
      handleCreate cfg env args = CliResult.exit 1 noConnectorMessage) ∧
    ((getApiKey cfg env).isSome = true →
      jsFalsyStr (getFlag args "--id=") = false →
      jsFalsyNum (resolveConnectorId args cfg) = true →
      handleUpdate cfg env args = CliResult.exit 1 noConnectorMessage) ∧
    (∀ p, handleCreate cfg env args = CliResult.submit p → p.connectorId ≠ 0) ∧
    (∀ r, handleUpdate cfg env args = CliResult.submit r →
      r.paradigmOptions.connectorId ≠ 0) := by
  refine ⟨?_, ?_, ?_, ?_, ?_⟩
  · intro h
    simp [getDefaultConnectorId, h]
  · intro hkey h1 h2 h3 h4 h5
    obtain ⟨v, hv⟩ := Option.isSome_iff_exists.mp h4
    cases hg : getApiKey cfg env with
    | none => rw [hg] at hkey; cases hkey
    | some k => simp [handleCreate, initializeClient, hg, h1, h2, h3, hv, h5]
  · intro hkey h1 h5
    cases hg : getApiKey cfg env with
    | none => rw [hg] at hkey; cases hkey
    | some k => simp [handleUpdate, initializeClient, hg, h1, h5]
  · intro p hp
    unfold handleCreate at hp
    simp only [] at hp
    split at hp
    · simp at hp
    · split at hp
      · simp at hp
      · rename_i hcond
        split at hp
        · simp at hp
        · rename_i hnum
          cases hp
          cases hr : resolveConnectorId args cfg with
          | none => rw [hr] at hnum; exact absurd rfl hnum
          | some n =>
            rw [hr] at hnum
            simp only [jsFalsyNum] at hnum
            simp only [hr, Option.getD_some]
            intro h0
            exact hnum (by simp [h0])
  · intro r hr'
    unfold handleUpdate at hr'
    simp only [] at hr'
    split at hr'
    · simp at hr'
    · split at hr'
      · simp at hr'
      · rename_i hcond
        split at hr'
        · simp at hr'
        · rename_i hnum
          cases hr'
          cases hr : resolveConnectorId args cfg with
          | none => rw [hr] at hnum; exact absurd rfl hnum
          | some n =>
            rw [hr] at hnum
            simp only [jsFalsyNum] at hnum
            simp only [hr, Option.getD_some]
            intro h0
            exact hnum (by simp [h0])

/-- C10 witness: settings with a stored default of 0 read back as absent,
and an explicit `--connector=0` makes both commands exit with the
missing-connector error. -/
theorem zeroConnectorId_absent_witness :
    getDefaultConnectorId zeroConnectorConfig = none ∧
      handleCreate zeroConnectorConfig none
          ["--id=a", "--prompt=q", "--name=n", "--emails=a@b", "--connector=0"] =
        CliResult.exit 1 noConnectorMessage ∧
      handleUpdate zeroConnectorConfig none ["--id=a", "--connector=0"] =
        CliResult.exit 1 noConnectorMessage :=
  ⟨(zeroConnectorId_absent zeroConnectorConfig none []).1 rfl,
   (zeroConnectorId_absent zeroConnectorConfig none
       ["--id=a", "--prompt=q", "--name=n", "--emails=a@b", "--connector=0"]).2.1
     (by decide) (by decide) (by decide) (by decide) (by decide) (by decide),
   (zeroConnectorId_absent zeroConnectorConfig none ["--id=a", "--connector=0"]).2.2.1
     (by decide) (by decide) (by decide)⟩
